import Mathlib

/-!
Verification of the Rustle feed controller and API client (src/main.rs).

The Rust program is a desktop Reddit client.  The parts relevant to the
claims are:

* `RedditClient::authenticate` (main.rs 106-141): HTTP token exchange,
  storing `access_token` on success only.
* `Settings::load` (main.rs 248-265): reads a secret record from the
  keyring, falling back to a default record.
* The feed controller state held in `RedditApp` (main.rs 219-236): the
  fields `posts`, `loading`, `error_message`, `after` (pagination
  cursor), `initial_load`, `scroll_to_top`, `current_subreddit`,
  `subreddits`, `loading_subreddits`, `is_loading_more`, each an
  `Arc<Mutex<...>>` cell.
* The operations `load_more_posts` (372-448), `authenticate_and_load`
  (450-515), `refresh_posts` (517-520), `switch_subreddit` (596-671),
  and the scroll-trigger logic inside `update` (977-1002).

Each asynchronous operation is embedded as two functions: a `_start`
function (the synchronous part run on the UI thread before the worker
thread is spawned, returning the new state together with the fetch the
worker was asked to perform, if any) and a `_complete` function (the
worker's writes back into shared state once the network outcome is
known, the outcome being passed in as data).  This mirrors the Rust
code's structure: the `_start` part is everything before `thread::spawn`,
and the `_complete` part is the `match result` (plus the client-creation
and authentication failure arms) inside the spawned closure.

The `reddit_client` cell and the `last_scroll_pos : f32` cell are kept
out of the controller state: no claim mentions them, the busy-path
no-ops return before touching any cell, and `last_scroll_pos` is
floating-point UI bookkeeping.  The client itself is modelled separately
for the `authenticate` claims.
-/

/-- `ImageSource` (main.rs 62-66): one resolution variant of a preview
image. -/
structure ImageSource where
  url : String
  height : Nat
deriving Repr, DecidableEq

/-- `Image` (main.rs 56-60): a preview image with its resolution list. -/
structure Image where
  source : ImageSource
  resolutions : List ImageSource
deriving Repr, DecidableEq

/-- `Preview` (main.rs 51-54). -/
structure Preview where
  images : List Image
deriving Repr, DecidableEq

/-- `Post` (main.rs 40-49): one fetched Reddit post. -/
structure Post where
  title : String
  author : String
  subreddit : String
  score : Int
  url : String
  thumbnail : String
  preview : Option Preview
deriving Repr, DecidableEq

/-- The controller state: the `Arc<Mutex<...>>` cells of `RedditApp`
(main.rs 219-236) that the feed operations read and write. -/
structure AppState where
  posts : List Post
  loading : Bool
  error_message : Option String
  after : Option String
  initial_load : Bool
  scroll_to_top : Bool
  current_subreddit : String
  subreddits : List String
  loading_subreddits : Bool
  is_loading_more : Bool
deriving Repr, DecidableEq

/-- A fetch handed to a worker thread: the feed key and cursor captured
at issue time (`current_subreddit` and `after_token` clones in
`load_more_posts`, the `subreddit` argument and `None` in
`switch_subreddit`). -/
structure IssuedFetch where
  key : String
  cursor : Option String
deriving Repr, DecidableEq

/-- Outcome of a listing worker (main.rs 392-424 and 619-651): the
client could not be built, authentication failed, the listing fetch
failed, or the fetch returned posts and a next cursor. -/
inductive FetchOutcome where
  | clientErr (e : String)
  | authErr (e : String)
  | fetchErr (e : String)
  | ok (fetched : List Post) (newAfter : Option String)
deriving Repr, DecidableEq

/-- `RedditApp::load_more_posts`, synchronous part (main.rs 372-389):
no-op while `loading`; otherwise sets `loading` and captures the cursor
and current feed key for the worker. -/
def load_more_start (s : AppState) : AppState × Option IssuedFetch :=
  if s.loading then (s, none)
  else ({ s with loading := true },
        some { key := s.current_subreddit, cursor := s.after })

/-- `RedditApp::load_more_posts`, worker writes (main.rs 396-445).
Failure arms store a message and clear the flags; the success arm
replaces the post list only when the fetch was issued with no cursor
and the list is empty at completion, otherwise appends, then stores the
returned cursor.  The success arm does not touch `error_message`. -/
def load_more_complete (s : AppState) (f : IssuedFetch)
    (out : FetchOutcome) : AppState :=
  match out with
  | .clientErr e =>
      { s with error_message := some ("Failed to create client: " ++ e),
               loading := false, initial_load := false }
  | .authErr e =>
      { s with error_message := some ("Authentication error: " ++ e),
               loading := false, initial_load := false }
  | .fetchErr e =>
      { s with error_message := some ("Error fetching posts: " ++ e),
               loading := false, initial_load := false }
  | .ok fetched newAfter =>
      let newPosts :=
        if f.cursor.isNone && s.posts.isEmpty then fetched
        else s.posts ++ fetched
      { s with posts := newPosts, after := newAfter,
               loading := false, initial_load := false }

/-- `RedditApp::switch_subreddit`, synchronous part (main.rs 596-614):
no-op while `loading`; otherwise stores the new feed key, sets
`loading`, resets the cursor and error, and sets the initial-load and
scroll flags.  The post list is not touched here. -/
def switch_subreddit_start (s : AppState) (subreddit : String) :
    AppState × Option IssuedFetch :=
  if s.loading then (s, none)
  else ({ s with current_subreddit := subreddit,
                 loading := true,
                 after := none,
                 error_message := none,
                 initial_load := true,
                 scroll_to_top := true },
        some { key := subreddit, cursor := none })

/-- `RedditApp::switch_subreddit`, worker writes (main.rs 619-668).
The success arm unconditionally replaces the post list and stores the
returned cursor. -/
def switch_subreddit_complete (s : AppState) (out : FetchOutcome) :
    AppState :=
  match out with
  | .clientErr e =>
      { s with error_message := some ("Failed to create client: " ++ e),
               loading := false, initial_load := false }
  | .authErr e =>
      { s with error_message := some ("Authentication error: " ++ e),
               loading := false, initial_load := false }
  | .fetchErr e =>
      { s with error_message := some ("Error fetching posts: " ++ e),
               loading := false, initial_load := false }
  | .ok fetched newAfter =>
      { s with posts := fetched, after := newAfter,
               loading := false, initial_load := false }

/-- `RedditApp::refresh_posts` (main.rs 517-520): switch to the current
feed key. -/
def refresh_posts_start (s : AppState) : AppState × Option IssuedFetch :=
  switch_subreddit_start s s.current_subreddit

/-- Outcome of the `authenticate_and_load` worker (main.rs 460-514):
client creation or authentication failed, the subreddit-list fetch
failed, or the list succeeded followed by the home-feed fetch failing
or succeeding. -/
inductive AuthLoadOutcome where
  | clientErr (e : String)
  | authErr (e : String)
  | subsErr (e : String)
  | subsOkFetchErr (subs : List String) (e : String)
  | subsOkFetchOk (subs : List String) (fetched : List Post)
      (newAfter : Option String)
deriving Repr, DecidableEq

/-- `RedditApp::authenticate_and_load`, worker writes (main.rs 460-514).
On a fully successful run the post list is replaced, but the home-feed
fetch's returned cursor is bound to `_after` and discarded: the `after`
cell is never written on any arm of this worker. -/
def authenticate_and_load_complete (s : AppState)
    (out : AuthLoadOutcome) : AppState :=
  match out with
  | .clientErr e =>
      { s with error_message := some ("Failed to create client: " ++ e),
               loading := false, initial_load := false }
  | .authErr e =>
      { s with error_message := some ("Authentication error: " ++ e),
               loading := false, initial_load := false }
  | .subsErr e =>
      { s with loading_subreddits := false,
               error_message := some ("Error fetching subreddits: " ++ e),
               loading := false, initial_load := false }
  | .subsOkFetchErr subs e =>
      { s with subreddits := subs, loading_subreddits := false,
               error_message := some ("Error fetching posts: " ++ e),
               loading := false, initial_load := false }
  | .subsOkFetchOk subs fetched _newAfter =>
      { s with subreddits := subs, loading_subreddits := false,
               posts := fetched,
               loading := false, initial_load := false }

/-- The scroll-proximity trigger inside `RedditApp::update`
(main.rs 977-1002): when not loading, within 1500 layout units of the
bottom, and not already in a load-more window, it sets
`is_loading_more`, patches a `None` cursor to the synthetic `Some ""`
marker when posts exist, and calls `load_more_posts`.  Distances are
layout units (`f32` in the source), carried here as integers. -/
def trigger_load_more (s : AppState) (distanceFromBottom : Int) :
    AppState × Option IssuedFetch :=
  if !s.loading && distanceFromBottom < 1500 && !s.is_loading_more then
    let s1 := { s with is_loading_more := true }
    let s2 :=
      if s1.after.isNone && !s1.posts.isEmpty then
        { s1 with after := some "" }
      else s1
    load_more_start s2
  else (s, none)

/-- A JSON value, as `serde_json::Value` is used by `authenticate`:
only object field lookup and string extraction are exercised. -/
inductive Json where
  | null
  | bool (b : Bool)
  | num (n : Int)
  | str (s : String)
  | arr (xs : List Json)
  | obj (fields : List (String × Json))
deriving Repr

/-- `serde_json::Value::get(key)`: field lookup, `none` on non-objects
and missing keys. -/
def Json.get (j : Json) (k : String) : Option Json :=
  match j with
  | .obj fields => (fields.find? (fun p => p.fst == k)).map Prod.snd
  | _ => none

/-- `serde_json::Value::as_str`. -/
def Json.asStr : Json → Option String
  | .str s => some s
  | _ => none

/-- An HTTP response as `authenticate` consumes it: the status code and
the body text's JSON parse (`none` when the text is not valid JSON). -/
structure HttpResponse where
  status : Nat
  body : Option Json
deriving Repr

/-- `reqwest::StatusCode::is_success`: 2xx. -/
def statusIsSuccess (c : Nat) : Bool :=
  200 ≤ c && c < 300

/-- Deserialization of `AuthResponse` (main.rs 19-22) by serde: the body
must be a JSON object whose `access_token` field is a string. -/
def parseAuthResponse (body : Option Json) : Option String :=
  body.bind fun j => (j.get "access_token").bind Json.asStr

/-- The error-payload probe in `authenticate` (main.rs 127-131): parse
the body as JSON and read a string `error` field. -/
def extractProviderError (body : Option Json) : Option String :=
  body.bind fun j => (j.get "error").bind Json.asStr

/-- `RedditClient` (main.rs 90-94): the one piece of mutable state is
the optional access token (the `reqwest::Client` handle carries no state
the program observes). -/
structure RedditClient where
  access_token : Option String
deriving Repr, DecidableEq

/-- `RedditClient::authenticate` (main.rs 106-141).  The network
exchange is the input: `none` models a transport failure of
`send()`/`text()` (the `?` propagations), `some r` the received
response.  Returns the call's result together with the client after the
call.  On a non-success status with a string `error` field in a
parseable JSON body, fails with the provider's message; on any other
non-success status, fails with a status message; on a success status,
succeeds exactly when the body yields an access token, which is then
stored.  The token is written on no other path. -/
def RedditClient.authenticate (c : RedditClient)
    (exchange : Option HttpResponse) :
    Except String Unit × RedditClient :=
  match exchange with
  | none => (.error "transport error", c)
  | some r =>
    if !statusIsSuccess r.status then
      match extractProviderError r.body with
      | some e => (.error ("Reddit API error: " ++ e), c)
      | none =>
          (.error ("Authentication failed with status: "
                    ++ toString r.status), c)
    else
      match parseAuthResponse r.body with
      | some tok => (.ok (), { c with access_token := some tok })
      | none => (.error "Failed to parse authentication response", c)

/-- `Settings` (main.rs 238-245). -/
structure Settings where
  client_id : String
  client_secret : String
  username : String
  password : String
  dark_mode : Bool
deriving Repr, DecidableEq

/-- The record `Settings::load` falls back to (main.rs 258-264). -/
def defaultSettings : Settings :=
  { client_id := "", client_secret := "", username := "",
    password := "", dark_mode := true }

/-- `Settings::load` (main.rs 248-265).  `getPassword` is the keyring
read: `Except.error` models a retrieval failure (absent record
included), which `unwrap_or_default()` turns into the empty string.
`fromStr` is `serde_json::from_str::<Settings>`, passed in as the
library function it is.  A non-empty stored text that parses is
returned; everything else falls through to the default record.
(`Entry::new("Rustle", "credentials")` is constructed from constant
valid names and cannot fail, so its `unwrap` is not a reachable
failure.) -/
def Settings.load (getPassword : Except String String)
    (fromStr : String → Option Settings) : Settings :=
  let stored := match getPassword with
    | .ok s => s
    | .error _ => ""
  if stored ≠ "" then
    match fromStr stored with
    | some s => s
    | none => defaultSettings
  else defaultSettings

/-! Concrete sample data used by counterexamples and witnesses. -/

/-- A sample post from the rust feed. -/
def postA : Post :=
  { title := "First rust post", author := "alice", subreddit := "rust",
    score := 10, url := "https://example.com/a", thumbnail := "self",
    preview := none }

/-- A sample post from the golang feed. -/
def postB : Post :=
  { title := "A golang post", author := "bob", subreddit := "golang",
    score := 3, url := "https://example.com/b", thumbnail := "self",
    preview := none }

/-- The idle fresh state: the controller as `RedditApp::new` builds it
(loading and initial flags lowered, home feed, nothing fetched yet). -/
def emptyState : AppState :=
  { posts := [], loading := false, error_message := none, after := none,
    initial_load := true, scroll_to_top := true,
    current_subreddit := "home", subreddits := [],
    loading_subreddits := false, is_loading_more := false }

/-- An idle state on the golang feed holding one post and no stored
cursor. -/
def stateB : AppState :=
  { emptyState with posts := [postB], current_subreddit := "golang",
                    initial_load := false, scroll_to_top := false }

/-- `stateB` with a fetch in flight. -/
def busyState : AppState :=
  { stateB with loading := true }

/-- `stateB` carrying a prior fetch error. -/
def errState : AppState :=
  { stateB with error_message := some "Error fetching posts: boom" }

/-- The state right after `RedditApp::new` with credentials: the startup
loader is about to run, `loading` and `initial_load` raised
(main.rs 283-300 and 1141-1189). -/
def startupState : AppState :=
  { emptyState with loading := true }

/-! Claim C1: replace-vs-append. -/

/-- The property C1 states: every completed fetch, whether started by
`load_more_posts` or `switch_subreddit`, replaces the list exactly when
it was issued with no cursor and the list is empty at completion, and
appends in every other case.  (A switch fetch is always issued with no
cursor.) -/
def C1Claim : Prop :=
  ∀ (s : AppState) (f : IssuedFetch) (fetched : List Post)
    (na : Option String),
    ((load_more_complete s f (.ok fetched na)).posts =
      if f.cursor.isNone && s.posts.isEmpty then fetched
      else s.posts ++ fetched)
    ∧ ((switch_subreddit_complete s (.ok fetched na)).posts =
      if s.posts.isEmpty then fetched else s.posts ++ fetched)

/-- Claim C1 is false for the `switch_subreddit` path: completing a
switch fetch on the golang feed while the old post list is still
non-empty (the switch never cleared it) replaces the list instead of
appending. -/
theorem c1_counterexample : ¬ C1Claim := by
  intro h
  have h2 := (h stateB ⟨"golang", none⟩ [postA] none).2
  revert h2
  decide

/-- Claim C1 as amended: `load_more_posts` completions replace exactly
when issued with no cursor and the list at completion is empty, and
append otherwise; `switch_subreddit` completions always replace the
post list with the fetched page. -/
theorem c1_amended_replace_append (s : AppState) (f : IssuedFetch)
    (fetched : List Post) (na : Option String) :
    (f.cursor = none → s.posts = [] →
      (load_more_complete s f (.ok fetched na)).posts = fetched)
    ∧ (f.cursor ≠ none ∨ s.posts ≠ [] →
      (load_more_complete s f (.ok fetched na)).posts = s.posts ++ fetched)
    ∧ (switch_subreddit_complete s (.ok fetched na)).posts = fetched := by
  refine ⟨?_, ?_, rfl⟩
  · intro hc hp
    simp [load_more_complete, hc, hp]
  · intro hcase
    rcases hcase with hc | hp
    · have hfalse : f.cursor.isNone = false := by
        cases hcur : f.cursor with
        | none => exact absurd hcur hc
        | some a => rfl
      simp [load_more_complete, hfalse]
    · have hfalse : s.posts.isEmpty = false := by
        cases hps : s.posts with
        | nil => exact absurd hps hp
        | cons a l => rfl
      simp [load_more_complete, hfalse]

/-- Witness for the amended C1: a load-more on the golang feed issued
with a cursor appends the fetched page after the existing post. -/
theorem c1_amended_witness :
    ((⟨"golang", some "t3_b"⟩ : IssuedFetch).cursor ≠ none ∨
      stateB.posts ≠ [])
    ∧ (load_more_complete stateB ⟨"golang", some "t3_b"⟩
        (.ok [postA] none)).posts = stateB.posts ++ [postA] :=
  ⟨Or.inl (by decide),
   (c1_amended_replace_append stateB ⟨"golang", some "t3_b"⟩ [postA]
      none).2.1 (Or.inl (by decide))⟩

/-! Claim C2: what switch_feed clears before its fetch. -/

/-- The property C2 states: an idle `switch_subreddit` clears posts,
cursor and error before the fetch starts, and a failing fetch then
leaves the post list empty. -/
def C2Claim : Prop :=
  ∀ (s : AppState) (key : String), s.loading = false →
    ((switch_subreddit_start s key).1.posts = []
      ∧ (switch_subreddit_start s key).1.after = none
      ∧ (switch_subreddit_start s key).1.error_message = none)
    ∧ ∀ e, (switch_subreddit_complete (switch_subreddit_start s key).1
              (.fetchErr e)).posts = []

/-- Claim C2 is false: switching away from the idle golang state does
not clear the post list (main.rs 601-606 touches every cell except
`posts`). -/
theorem c2_counterexample : ¬ C2Claim := by
  intro h
  have h2 := ((h stateB "rust" rfl).1).1
  revert h2
  decide

/-- Claim C2 as amended: an idle `switch_subreddit` clears the cursor
and the error but leaves the post list in place, and a failing fetch
then stores the error and leaves the post list as it was before the
switch (so it is empty only if it already was). -/
theorem c2_amended_switch_clears (s : AppState) (key e : String)
    (h : s.loading = false) :
    (switch_subreddit_start s key).1.after = none
    ∧ (switch_subreddit_start s key).1.error_message = none
    ∧ (switch_subreddit_start s key).1.posts = s.posts
    ∧ (switch_subreddit_start s key).1.loading = true
    ∧ (switch_subreddit_start s key).1.current_subreddit = key
    ∧ (switch_subreddit_complete (switch_subreddit_start s key).1
        (.fetchErr e)).posts = s.posts
    ∧ (switch_subreddit_complete (switch_subreddit_start s key).1
        (.fetchErr e)).error_message
        = some ("Error fetching posts: " ++ e) := by
  simp [switch_subreddit_start, switch_subreddit_complete, h]

/-- Witness for the amended C2 at the idle golang state. -/
theorem c2_amended_witness :
    stateB.loading = false
    ∧ ((switch_subreddit_start stateB "rust").1.after = none
       ∧ (switch_subreddit_start stateB "rust").1.error_message = none
       ∧ (switch_subreddit_start stateB "rust").1.posts = stateB.posts
       ∧ (switch_subreddit_start stateB "rust").1.loading = true
       ∧ (switch_subreddit_start stateB "rust").1.current_subreddit = "rust"
       ∧ (switch_subreddit_complete (switch_subreddit_start stateB "rust").1
           (.fetchErr "down")).posts = stateB.posts
       ∧ (switch_subreddit_complete (switch_subreddit_start stateB "rust").1
           (.fetchErr "down")).error_message
           = some ("Error fetching posts: " ++ "down")) :=
  ⟨rfl, c2_amended_switch_clears stateB "rust" "down" rfl⟩

/-! Claim C3: the stored cursor after each completed fetch. -/

/-- The property C3 states (for the `authenticate_and_load` path): a
completed fetch leaves the stored cursor equal to the cursor the fetch
returned.  `load_more_complete` and `switch_subreddit_complete` satisfy
this, but `authenticate_and_load` does not: its home-feed success arm
(main.rs 501-506) binds the returned cursor to `_after` and discards
it, so starting from the startup state the controller ends with posts
loaded and `after` still `None` — exactly the cursor-absent-but-posts-
non-empty state the scroll trigger's own comment (main.rs 987-988)
calls wrong.  Here the startup loader's fetch returns cursor
`"t3_abc"`, yet the stored cursor stays `None`. -/
theorem c3_authload_drops_cursor :
    (authenticate_and_load_complete startupState
      (.subsOkFetchOk ["aww", "pics"] [postA] (some "t3_abc"))).after
      = none
    ∧ (authenticate_and_load_complete startupState
        (.subsOkFetchOk ["aww", "pics"] [postA] (some "t3_abc"))).posts
        = [postA]
    ∧ (authenticate_and_load_complete startupState
        (.subsOkFetchOk ["aww", "pics"] [postA] (some "t3_abc"))).loading
        = false :=
  ⟨rfl, rfl, rfl⟩

/-- The part of C3 the code does satisfy: `load_more_posts` and
`switch_subreddit` completions store exactly the returned cursor, and a
`switch_subreddit` issued while idle resets the cursor to `None` until
its fetch completes. -/
theorem c3_cursor_tracks_fetch (s : AppState) (f : IssuedFetch)
    (fetched : List Post) (na : Option String) (key : String)
    (h : s.loading = false) :
    (load_more_complete s f (.ok fetched na)).after = na
    ∧ (switch_subreddit_complete s (.ok fetched na)).after = na
    ∧ (switch_subreddit_start s key).1.after = none := by
  refine ⟨rfl, rfl, ?_⟩
  simp [switch_subreddit_start, h]

/-- Witness for `c3_cursor_tracks_fetch` at the idle golang state. -/
theorem c3_cursor_tracks_fetch_witness :
    stateB.loading = false
    ∧ ((load_more_complete stateB ⟨"golang", some "t3_b"⟩
          (.ok [postA] (some "t3_c"))).after = some "t3_c"
       ∧ (switch_subreddit_complete stateB
           (.ok [postA] (some "t3_c"))).after = some "t3_c"
       ∧ (switch_subreddit_start stateB "rust").1.after = none) :=
  ⟨rfl, c3_cursor_tracks_fetch stateB ⟨"golang", some "t3_b"⟩ [postA]
    (some "t3_c") "rust" rfl⟩

/-! Claim C4: calls while busy are no-ops. -/

/-- Claim C4: while the `loading` flag is set, `load_more_posts`,
`switch_subreddit` and `refresh_posts` return without touching any
cell: the guard at main.rs 373-375 and 597-599 runs before any write,
so the state (posts, cursor, feed key, error and every flag) is
unchanged and no fetch is issued. -/
theorem c4_busy_calls_are_noops (s : AppState) (key : String)
    (h : s.loading = true) :
    load_more_start s = (s, none)
    ∧ switch_subreddit_start s key = (s, none)
    ∧ refresh_posts_start s = (s, none) := by
  refine ⟨?_, ?_, ?_⟩ <;>
    simp [load_more_start, switch_subreddit_start, refresh_posts_start, h]

/-- Witness for C4 at the busy golang state. -/
theorem c4_busy_witness :
    busyState.loading = true
    ∧ (load_more_start busyState = (busyState, none)
       ∧ switch_subreddit_start busyState "rust" = (busyState, none)
       ∧ refresh_posts_start busyState = (busyState, none)) :=
  ⟨rfl, c4_busy_calls_are_noops busyState "rust" rfl⟩

/-! Claim C5: when the error clears. -/

/-- The property C5 states (its load-more part): a `load_more_posts`
fetch that completes successfully clears the current error. -/
def C5Claim : Prop :=
  ∀ (s : AppState) (f : IssuedFetch) (fetched : List Post)
    (na : Option String),
    (load_more_complete s f (.ok fetched na)).error_message = none

/-- Claim C5 is false: the success arm of `load_more_posts`
(main.rs 427-439) writes posts, cursor and flags but never touches
`error_message`, so a prior error survives a successful load-more. -/
theorem c5_counterexample : ¬ C5Claim := by
  intro h
  have h2 := h errState ⟨"golang", some "t3_b"⟩ [postA] none
  revert h2
  decide

/-- Claim C5 as amended: every fetch failure overwrites the current
error; the error is cleared when the next `switch_subreddit` (or
`refresh_posts`) starts while idle; but a successful `load_more_posts`
leaves the error exactly as it was — it does not clear it. -/
theorem c5_amended_error_lifecycle (s : AppState) (f : IssuedFetch)
    (fetched : List Post) (na : Option String) (e key : String)
    (h : s.loading = false) :
    (load_more_complete s f (.fetchErr e)).error_message
      = some ("Error fetching posts: " ++ e)
    ∧ (switch_subreddit_complete s (.fetchErr e)).error_message
      = some ("Error fetching posts: " ++ e)
    ∧ (load_more_complete s f (.ok fetched na)).error_message
      = s.error_message
    ∧ (switch_subreddit_start s key).1.error_message = none := by
  refine ⟨rfl, rfl, rfl, ?_⟩
  simp [switch_subreddit_start, h]

/-- Witness for the amended C5 at the golang state carrying an error. -/
theorem c5_amended_witness :
    errState.loading = false
    ∧ ((load_more_complete errState ⟨"golang", some "t3_b"⟩
          (.fetchErr "down")).error_message
          = some ("Error fetching posts: " ++ "down")
       ∧ (switch_subreddit_complete errState
           (.fetchErr "down")).error_message
           = some ("Error fetching posts: " ++ "down")
       ∧ (load_more_complete errState ⟨"golang", some "t3_b"⟩
           (.ok [postA] none)).error_message = errState.error_message
       ∧ (switch_subreddit_start errState "rust").1.error_message
           = none) :=
  ⟨rfl, c5_amended_error_lifecycle errState ⟨"golang", some "t3_b"⟩
    [postA] none "down" "rust" rfl⟩

/-! Claim C6: the synthetic empty-string cursor marker. -/

/-- Claim C6: when the scroll trigger fires (not loading, within 1500
units of the bottom, outside the load-more window) with no stored
cursor but a non-empty post list, it first writes the synthetic marker
`Some ""` into the cursor cell (main.rs 986-992), so the fetch it then
issues carries a present cursor and its completion appends to the
existing posts instead of replacing them. -/
theorem c6_trigger_synthesizes_marker (s : AppState) (d : Int)
    (hl : s.loading = false) (hm : s.is_loading_more = false)
    (hd : d < 1500) (ha : s.after = none) (hp : s.posts ≠ []) :
    (trigger_load_more s d).1.after = some ""
    ∧ (trigger_load_more s d).2 = some ⟨s.current_subreddit, some ""⟩
    ∧ ∀ fetched na,
        (load_more_complete (trigger_load_more s d).1
          ⟨s.current_subreddit, some ""⟩ (.ok fetched na)).posts
          = (trigger_load_more s d).1.posts ++ fetched := by
  have hempty : s.posts.isEmpty = false := by
    cases hps : s.posts with
    | nil => exact absurd hps hp
    | cons a l => rfl
  refine ⟨?_, ?_, ?_⟩ <;>
    simp [trigger_load_more, load_more_start, load_more_complete,
          hl, hm, hd, ha, hempty]

/-- Witness for C6: the trigger at distance 0 on the cursorless golang
state installs the marker, issues a marked fetch, and that fetch's
completion appends. -/
theorem c6_witness :
    stateB.loading = false ∧ stateB.is_loading_more = false
    ∧ (0 : Int) < 1500 ∧ stateB.after = none ∧ stateB.posts ≠ []
    ∧ ((trigger_load_more stateB 0).1.after = some ""
       ∧ (trigger_load_more stateB 0).2
           = some ⟨stateB.current_subreddit, some ""⟩
       ∧ (load_more_complete (trigger_load_more stateB 0).1
           ⟨stateB.current_subreddit, some ""⟩
           (.ok [postA] (some "t3_d"))).posts
           = (trigger_load_more stateB 0).1.posts ++ [postA]) := by
  refine ⟨rfl, rfl, by decide, rfl, by decide, ?_⟩
  have h := c6_trigger_synthesizes_marker stateB 0 rfl rfl (by decide)
    rfl (by decide)
  exact ⟨h.1, h.2.1, h.2.2 [postA] (some "t3_d")⟩

/-! Claim C7: the authenticate result taxonomy. -/

/-- Claim C7: `RedditClient::authenticate` fails with the provider's
message when the status is non-success and the body is parseable JSON
with a string `error` field; fails with the status message on any other
non-success status; and on a success status succeeds exactly when the
body yields an access token, which is then stored as the session
token. -/
theorem c7_authenticate_spec (c : RedditClient) (r : HttpResponse)
    (e tok : String) :
    (statusIsSuccess r.status = false →
      extractProviderError r.body = some e →
      (c.authenticate (some r)).1 = .error ("Reddit API error: " ++ e))
    ∧ (statusIsSuccess r.status = false →
      extractProviderError r.body = none →
      (c.authenticate (some r)).1
        = .error ("Authentication failed with status: "
                    ++ toString r.status))
    ∧ (statusIsSuccess r.status = true →
      (((c.authenticate (some r)).1 = .ok ())
        ↔ (parseAuthResponse r.body).isSome)
      ∧ (parseAuthResponse r.body = some tok →
          (c.authenticate (some r)).2.access_token = some tok)) := by
  refine ⟨?_, ?_, ?_⟩
  · intro hs he
    simp [RedditClient.authenticate, hs, he]
  · intro hs he
    simp [RedditClient.authenticate, hs, he]
  · intro hs
    refine ⟨?_, ?_⟩
    · cases hp : parseAuthResponse r.body with
      | none => simp [RedditClient.authenticate, hs, hp]
      | some t => simp [RedditClient.authenticate, hs, hp]
    · intro hp
      simp [RedditClient.authenticate, hs, hp]

/-- A 401 response whose body is the provider's structured rejection. -/
def respRejected : HttpResponse :=
  { status := 401, body := some (.obj [("error", .str "invalid_grant")]) }

/-- A 503 response whose body is not valid JSON. -/
def respPlainFailure : HttpResponse :=
  { status := 503, body := none }

/-- A 200 response whose body carries an access token. -/
def respToken : HttpResponse :=
  { status := 200,
    body := some (.obj [("access_token", .str "tok123"),
                        ("token_type", .str "bearer")]) }

/-- Witness for C7 on the three sample responses. -/
theorem c7_witness :
    (RedditClient.authenticate ⟨none⟩ (some respRejected)).1
      = .error ("Reddit API error: " ++ "invalid_grant")
    ∧ (RedditClient.authenticate ⟨none⟩ (some respPlainFailure)).1
      = .error ("Authentication failed with status: "
                  ++ toString respPlainFailure.status)
    ∧ (RedditClient.authenticate ⟨none⟩ (some respToken)).2.access_token
      = some "tok123" :=
  ⟨(c7_authenticate_spec ⟨none⟩ respRejected "invalid_grant" "tok123").1
      rfl rfl,
   (c7_authenticate_spec ⟨none⟩ respPlainFailure "invalid_grant"
      "tok123").2.1 rfl rfl,
   ((c7_authenticate_spec ⟨none⟩ respToken "invalid_grant" "tok123").2.2
      rfl).2 rfl⟩

/-! Claim C8: totality of Settings::load. -/

/-- Claim C8: `Settings::load` is total over the store's states.  As a
Lean function it returns a `Settings` on every input by construction;
this theorem pins down the three cases: a present, non-empty record
that parses is returned as-is; an absent record (keyring read failure)
yields the default; a present record that fails to parse yields the
default; and the default record has every credential field empty and
`dark_mode = true`.  The hypothesis `hempty` records that the real
parser rejects the empty string (serde on `""`), which the code's
`!stored.is_empty()` guard short-circuits anyway. -/
theorem c8_load_total (gp : Except String String)
    (fromStr : String → Option Settings)
    (hempty : fromStr "" = none) :
    (∀ raw s, gp = .ok raw → fromStr raw = some s →
      Settings.load gp fromStr = s)
    ∧ (∀ err, gp = .error err → Settings.load gp fromStr = defaultSettings)
    ∧ (∀ raw, gp = .ok raw → fromStr raw = none →
      Settings.load gp fromStr = defaultSettings)
    ∧ defaultSettings.client_id = "" ∧ defaultSettings.client_secret = ""
    ∧ defaultSettings.username = "" ∧ defaultSettings.password = ""
    ∧ defaultSettings.dark_mode = true := by
  refine ⟨?_, ?_, ?_, rfl, rfl, rfl, rfl, rfl⟩
  · intro raw s hgp hparse
    subst hgp
    by_cases hraw : raw = ""
    · subst hraw
      rw [hempty] at hparse
      exact absurd hparse (by simp)
    · simp [Settings.load, hraw, hparse]
  · intro err hgp
    subst hgp
    simp [Settings.load]
  · intro raw hgp hparse
    subst hgp
    by_cases hraw : raw = ""
    · subst hraw
      simp [Settings.load]
    · simp [Settings.load, hraw, hparse]

/-- A parsed sample record. -/
def sampleParsedSettings : Settings :=
  { client_id := "id", client_secret := "sec", username := "user",
    password := "pw", dark_mode := false }

/-- A sample stand-in for `serde_json::from_str::<Settings>`:
parses exactly one blob. -/
def sampleFromStr : String → Option Settings :=
  fun raw => if raw = "blob" then some sampleParsedSettings else none

/-- Witness for C8: the three store states under the sample parser. -/
theorem c8_witness :
    sampleFromStr "" = none
    ∧ Settings.load (.ok "blob") sampleFromStr = sampleParsedSettings
    ∧ Settings.load (.error "no entry") sampleFromStr = defaultSettings
    ∧ Settings.load (.ok "garbage") sampleFromStr = defaultSettings :=
  ⟨rfl,
   (c8_load_total (.ok "blob") sampleFromStr rfl).1 "blob"
     sampleParsedSettings rfl rfl,
   (c8_load_total (.error "no entry") sampleFromStr rfl).2.1 "no entry" rfl,
   (c8_load_total (.ok "garbage") sampleFromStr rfl).2.2.1 "garbage"
     rfl rfl⟩

/-! Claim C9: stale results are not discarded by feed key. -/

/-- The property C9 states: a completed `load_more_posts` fetch whose
issuing feed key no longer equals the current feed key is discarded —
the state is left untouched. -/
def C9Claim : Prop :=
  ∀ (s : AppState) (f : IssuedFetch) (fetched : List Post)
    (na : Option String),
    f.key ≠ s.current_subreddit →
    load_more_complete s f (.ok fetched na) = s

/-- Claim C9 is false: the completion arm (main.rs 426-445) never
compares the issuing key with the current key, so a fetch issued for
the rust feed, completing while the golang feed is current, still
appends its posts and overwrites the cursor. -/
theorem c9_counterexample : ¬ C9Claim := by
  intro h
  have h2 := h stateB ⟨"rust", some "t3_x"⟩ [postA] none (by decide)
  revert h2
  decide

/-- Claim C9 as amended: the code has no key tagging — a completion's
effect is entirely independent of the feed key it was issued for (only
the captured cursor matters).  What prevents cross-feed corruption
instead is the busy flag: `switch_subreddit` called while a fetch is in
flight is a no-op, so under atomically interleaved operations the
current key cannot change between a fetch's issue and its
completion. -/
theorem c9_amended_no_key_tagging (s : AppState) (f g : IssuedFetch)
    (out : FetchOutcome) (key : String)
    (hc : f.cursor = g.cursor) (hl : s.loading = true) :
    load_more_complete s f out = load_more_complete s g out
    ∧ switch_subreddit_start s key = (s, none) := by
  constructor
  · cases out <;> simp [load_more_complete, hc]
  · simp [switch_subreddit_start, hl]

/-- Witness for the amended C9: two fetches issued for different feeds
with the same cursor complete identically, and a switch during flight
is dropped. -/
theorem c9_amended_witness :
    (⟨"rust", some "t3_x"⟩ : IssuedFetch).cursor
      = (⟨"golang", some "t3_x"⟩ : IssuedFetch).cursor
    ∧ busyState.loading = true
    ∧ (load_more_complete busyState ⟨"rust", some "t3_x"⟩
          (.ok [postA] none)
        = load_more_complete busyState ⟨"golang", some "t3_x"⟩
          (.ok [postA] none)
       ∧ switch_subreddit_start busyState "rust" = (busyState, none)) :=
  ⟨rfl, rfl,
   c9_amended_no_key_tagging busyState ⟨"rust", some "t3_x"⟩
     ⟨"golang", some "t3_x"⟩ (.ok [postA] none) "rust" rfl rfl⟩

/-! Claim C10: authenticate leaves the token untouched on failure. -/

/-- Claim C10: `RedditClient::authenticate` assigns `access_token` only
after the whole call has succeeded; on every failure path — transport
error, non-success status (with or without a provider message), or an
unparseable success body — the client is returned exactly as it was. -/
theorem c10_authenticate_atomic (c : RedditClient)
    (exchange : Option HttpResponse) (e : String)
    (h : (c.authenticate exchange).1 = .error e) :
    (c.authenticate exchange).2 = c := by
  cases exchange with
  | none => rfl
  | some r =>
    by_cases hs : statusIsSuccess r.status
    · cases hp : parseAuthResponse r.body with
      | some tok =>
        exfalso
        rw [RedditClient.authenticate] at h
        simp [hs, hp] at h
      | none =>
        simp [RedditClient.authenticate, hs, hp]
    · cases herr : extractProviderError r.body with
      | some m =>
        simp [RedditClient.authenticate, hs, herr]
      | none =>
        simp [RedditClient.authenticate, hs, herr]

/-- Witness for C10: a transport failure leaves the old token in
place. -/
theorem c10_witness :
    (RedditClient.authenticate ⟨some "old"⟩ none).1
      = .error "transport error"
    ∧ (RedditClient.authenticate ⟨some "old"⟩ none).2 = ⟨some "old"⟩ :=
  ⟨rfl, c10_authenticate_atomic ⟨some "old"⟩ none "transport error" rfl⟩
